import Mathlib

/-!
Verification of the deployment orchestrator of the aztec-wallet-sdk repository.

This file gives a shallow embedding, in Lean, of `src/contract-deploy.ts`
(the `DeployMethod` planning pipeline, `registerContractClass`,
`deployInstance`, `getProtocolContract`, `fetchProtocolContractArtifact`,
`DeploySentTx`) and of the `request` method of `ReownWalletSdk`.

Modelling conventions:
* field elements (`Fr`) and addresses are natural numbers;
* the opaque cryptographic/ABI primitives consumed from `@aztec/circuits.js`
  and `@aztec/foundation` (`getContractInstanceFromDeployParams`,
  `getContractClassFromArtifact`, `bufferAsFields`, the canonical protocol
  contract builders) are boundary functions collected in a `CryptoEnv`
  record: they are deterministic but otherwise unconstrained;
* fallible asynchronous code is embedded in the `Except` monad;
* the `lazyValue` compute-once combinator (defined in `src/utils.ts`) and the
  receipt memoization of the upstream `SentTx` base class are modelled from
  the specification as an explicit lazy-cell state machine.
-/

/-- Field elements are modelled as natural numbers. -/
abbrev Fr := Nat

/-- Aztec addresses are modelled as natural numbers. -/
abbrev AztecAddress := Nat

/-- The zero address `AztecAddress.ZERO`. -/
def AztecAddress.ZERO : AztecAddress := 0

/-- A function of a contract artifact (name and selector). -/
structure FunctionArtifact where
  name : String
  selector : Nat
deriving DecidableEq

/-- A contract artifact.  Only the data the orchestrator inspects is kept:
the contract name and the default initializer that the foundation helper
`getInitializer` resolves when no explicit constructor is given. -/
structure ContractArtifact where
  name : String
  defaultInitializer : Option FunctionArtifact
deriving DecidableEq

/-- Modelled from the spec: `getInitializer` from `@aztec/foundation/abi` is an
external collaborator that resolves the constructor function artifact from an
explicit override or from the artifact's designated initializer. -/
def getInitializer (artifact : ContractArtifact)
    (override : Option FunctionArtifact) : Option FunctionArtifact :=
  match override with
  | some fa => some fa
  | none => artifact.defaultInitializer

/-- The contract class data produced by `getContractClassFromArtifact`. -/
structure ContractClass where
  id : Fr
  artifactHash : Fr
  privateFunctionsRoot : Fr
  publicBytecodeCommitment : Fr
  packedBytecode : List Nat
deriving DecidableEq

/-- A contract instance together with its address, as produced by
`getContractInstanceFromDeployParams` and as returned by the node. -/
structure ContractInstanceWithAddress where
  address : AztecAddress
  salt : Fr
  contractClassId : Fr
  initializationHash : Fr
  publicKeys : Fr
  deployer : AztecAddress
deriving DecidableEq

/-- A canonical protocol contract (class registerer / instance deployer)
as returned by the `@aztec/protocol-contracts` builders. -/
structure CanonicalContract where
  contractClass : ContractClass
  artifact : ContractArtifact
deriving DecidableEq

/-- The opaque deterministic cryptographic/ABI primitives consumed at the
boundary (spec section 1: "consumed as opaque deterministic functions"). -/
structure CryptoEnv where
  /-- address derivation inside `getContractInstanceFromDeployParams`:
  arguments are artifact, constructor args, resolved salt, public keys,
  deployer. -/
  deriveAddress : ContractArtifact → List Nat → Fr → Fr → AztecAddress → AztecAddress
  /-- the contract-class id embedded in the derived instance. -/
  deriveClassId : ContractArtifact → Fr
  /-- initialization-hash derivation from artifact and constructor args. -/
  deriveInitHash : ContractArtifact → List Nat → Fr
  /-- salt resolution (the primitive substitutes a fresh salt when none is
  given). -/
  deriveSalt : Option Fr → Fr
  /-- The primitive `getContractClassFromArtifact`. -/
  classFromArtifact : ContractArtifact → ContractClass
  /-- The primitive `bufferAsFields` applied with `MAX_PACKED_PUBLIC_BYTECODE_SIZE_IN_FIELDS`. -/
  bufferAsFields : List Nat → List Nat
  /-- The builder `getCanonicalClassRegisterer`. -/
  canonicalClassRegisterer : CanonicalContract
  /-- The builder `getCanonicalInstanceDeployer`. -/
  canonicalInstanceDeployer : CanonicalContract

/-- The primitive `getContractInstanceFromDeployParams` (opaque boundary): the
salt, public keys and deployer are carried through; address, class id and
initialization hash are derived opaquely. -/
def getContractInstanceFromDeployParams (env : CryptoEnv)
    (artifact : ContractArtifact) (constructorArgs : List Nat)
    (salt : Option Fr) (publicKeys : Fr) (deployer : AztecAddress) :
    ContractInstanceWithAddress :=
  let s := env.deriveSalt salt
  { address := env.deriveAddress artifact constructorArgs s publicKeys deployer
    salt := s
    contractClassId := env.deriveClassId artifact
    initializationHash := env.deriveInitHash artifact constructorArgs
    publicKeys := publicKeys
    deployer := deployer }

/-- The node query capability used by the orchestrator
(`MinimalAztecNode` in `src/base.ts`): `getContractClass` is only tested
for null-ness, so the class info payload is modelled as `Unit`. -/
structure MinimalAztecNode where
  getContractClass : Fr → Option Unit
  getContract : AztecAddress → Option ContractInstanceWithAddress

/-- The account abstraction: an address plus the node capability. -/
structure Account where
  address : AztecAddress
  aztecNode : MinimalAztecNode

/-- The accessor `account.getAddress()`. -/
def Account.getAddress (a : Account) : AztecAddress := a.address

/-- The fatal error taxonomy of the orchestrator (spec section 7). -/
inductive DeployError where
  | contractClassMismatch (fromInstance fromArtifact : Fr)
  | nothingToDeploy (contractName : String)
  | deployerMismatch (expectedDeployer sender : AztecAddress)
  | notRegistered (address : AztecAddress)
  | artifactNotFound (address : AztecAddress)
deriving DecidableEq

/-- A capsule: the field-encoded bytecode payload. -/
abbrev Capsule := List Fr

/-- The three kinds of function calls the planner can build.  Each call
carries its target and the arguments passed by the corresponding
interaction in the source. -/
inductive FunctionCall where
  | registerClass (target : AztecAddress)
      (artifactHash privateFunctionsRoot publicBytecodeCommitment : Fr)
      (emitPublicBytecode : Bool)
  | deployContract (target : AztecAddress)
      (salt contractClassId initializationHash publicKeys : Fr)
      (isUniversalDeploy : Bool)
  | initializeCall (target : AztecAddress) (fn : FunctionArtifact)
      (args : List Nat)
deriving DecidableEq

/-- The position of a call kind in the fixed planning order:
registration, then deployment, then initialization. -/
def FunctionCall.kind : FunctionCall → Nat
  | .registerClass _ _ _ _ _ => 0
  | .deployContract _ _ _ _ _ _ => 1
  | .initializeCall _ _ _ => 2

/-- The record `ContractInfo`: address, instance and artifact of the contract being
deployed (`instance` is renamed `inst` because `instance` is a Lean
keyword). -/
structure ContractInfo where
  address : AztecAddress
  inst : ContractInstanceWithAddress
  artifact : ContractArtifact
deriving DecidableEq

/-- The assembled transaction request (`TransactionRequest` of
`exports/eip1193.ts`). -/
structure TransactionRequest where
  calls : List FunctionCall
  capsules : List Capsule
  registerContracts : List ContractInfo
deriving DecidableEq

/-- An `UnsafeContract` handle bound to a resolved instance and artifact. -/
structure UnsafeContract where
  inst : ContractInstanceWithAddress
  artifact : ContractArtifact
deriving DecidableEq

namespace ProtocolContractAddress

/-- Well-known protocol address of the class registerer (opaque constant). -/
def ContractClassRegisterer : AztecAddress := 3

/-- Well-known protocol address of the instance deployer (opaque constant). -/
def ContractInstanceDeployer : AztecAddress := 2

end ProtocolContractAddress

/-- The fixed candidate set evaluated by `fetchProtocolContractArtifact`:
exactly the canonical class registerer and the canonical instance deployer. -/
def protocolCandidates (env : CryptoEnv) : List CanonicalContract :=
  [env.canonicalClassRegisterer, env.canonicalInstanceDeployer]

/-- The function `fetchProtocolContractArtifact`: picks the candidate whose contract-class
id equals the queried one. -/
def fetchProtocolContractArtifact (env : CryptoEnv) (contractClassId : Fr) :
    Option ContractArtifact :=
  ((protocolCandidates env).find?
    (fun c => c.contractClass.id == contractClassId)).map (fun c => c.artifact)

/-- The function `getProtocolContract`: resolve the contract instance registered at a
well-known address and match it against the canonical artifacts. -/
def getProtocolContract (env : CryptoEnv) (node : MinimalAztecNode)
    (address : AztecAddress) : Except DeployError UnsafeContract :=
  match node.getContract address with
  | none => .error (.notRegistered address)
  | some contractInstance =>
    match fetchProtocolContractArtifact env contractInstance.contractClassId with
    | none => .error (.artifactNotFound address)
    | some artifact => .ok { inst := contractInstance, artifact := artifact }

/-- The helper `getRegistererContract`. -/
def getRegistererContract (env : CryptoEnv) (account : Account) :
    Except DeployError UnsafeContract :=
  getProtocolContract env account.aztecNode
    ProtocolContractAddress.ContractClassRegisterer

/-- The helper `getDeployerContract`. -/
def getDeployerContract (env : CryptoEnv) (account : Account) :
    Except DeployError UnsafeContract :=
  getProtocolContract env account.aztecNode
    ProtocolContractAddress.ContractInstanceDeployer

/-- The call/capsule pair returned by `registerContractClass`. -/
structure RegisterPlan where
  call : FunctionCall
  capsule : Capsule
deriving DecidableEq

/-- The function `registerContractClass`: builds the register-class call and its
bytecode capsule. -/
def registerContractClass (env : CryptoEnv) (account : Account)
    (artifact : ContractArtifact) : Except DeployError RegisterPlan :=
  let emitPublicBytecode := true
  let c := env.classFromArtifact artifact
  let encodedBytecode := env.bufferAsFields c.packedBytecode
  (getRegistererContract env account).bind fun registerer =>
    .ok { call := FunctionCall.registerClass registerer.inst.address
            c.artifactHash c.privateFunctionsRoot c.publicBytecodeCommitment
            emitPublicBytecode
          capsule := encodedBytecode }

/-- The function `deployInstance`: resolves the deployer protocol contract, applies the
deployer check, and builds the deploy call (the interaction's `request()` is
merged into this function since it is pure in the embedding). -/
def deployInstance (env : CryptoEnv) (account : Account)
    (inst : ContractInstanceWithAddress) : Except DeployError FunctionCall :=
  (getDeployerContract env account).bind fun deployerContract =>
    let isUniversalDeploy := inst.deployer == AztecAddress.ZERO
    if !isUniversalDeploy && !(account.getAddress == inst.deployer) then
      .error (.deployerMismatch inst.deployer account.getAddress)
    else
      .ok (FunctionCall.deployContract deployerContract.inst.address inst.salt
        inst.contractClassId inst.initializationHash inst.publicKeys
        isUniversalDeploy)

/-- The options record `DeployOptions` (the subset picked in `contract-deploy.ts`). -/
structure DeployOptions where
  contractAddressSalt : Option Fr
  universalDeploy : Bool
  skipClassRegistration : Bool
  skipPublicDeployment : Bool
  skipInitialization : Bool
deriving DecidableEq

/-- The constructor arguments of a `DeployMethod` instance. -/
structure DeployMethodParams where
  publicKeys : Fr
  account : Account
  artifact : ContractArtifact
  args : List Nat
  options : DeployOptions
  constructorOverride : Option FunctionArtifact

/-- The resolved constructor artifact (`this.#constructorArtifact`). -/
def DeployMethodParams.constructorArtifact (p : DeployMethodParams) :
    Option FunctionArtifact :=
  getInitializer p.artifact p.constructorOverride

/-- The deployer passed to `getContractInstanceFromDeployParams`:
`options.universalDeploy ? AztecAddress.ZERO : this.account.getAddress()`. -/
def deployerParam (options : DeployOptions) (account : Account) : AztecAddress :=
  if options.universalDeploy then AztecAddress.ZERO else account.getAddress

/-- The deterministically derived contract instance of a `DeployMethod`. -/
def derivedInstance (env : CryptoEnv) (p : DeployMethodParams) :
    ContractInstanceWithAddress :=
  getContractInstanceFromDeployParams env p.artifact p.args
    p.options.contractAddressSalt p.publicKeys (deployerParam p.options p.account)

/-- The body of the memoized `this.#contract` accessor: derive the instance,
cross-check the contract class id computed from the artifact, and produce the
`ContractInfo`. -/
def deployMethodContract (env : CryptoEnv) (p : DeployMethodParams) :
    Except DeployError ContractInfo :=
  if (derivedInstance env p).contractClassId ≠ (env.classFromArtifact p.artifact).id then
    .error (.contractClassMismatch (derivedInstance env p).contractClassId
      (env.classFromArtifact p.artifact).id)
  else
    .ok { address := (derivedInstance env p).address
          inst := derivedInstance env p
          artifact := p.artifact }

/-- A sub-plan: the calls and capsules produced by one planning stage. -/
structure CallPlan where
  calls : List FunctionCall
  capsules : List Capsule
deriving DecidableEq

/-- The class-registration conditional of `#getDeploymentFunctionCalls`:
register the contract class only if registration is not skipped and the
class is not already known to the node. -/
def registrationStep (env : CryptoEnv) (p : DeployMethodParams)
    (contract : ContractInfo) : Except DeployError (Option RegisterPlan) :=
  if p.options.skipClassRegistration then
    .ok none
  else
    let alreadyRegistered :=
      (p.account.aztecNode.getContractClass contract.inst.contractClassId).isSome
    if alreadyRegistered then
      .ok none
    else
      (registerContractClass env p.account contract.artifact).bind fun registering =>
        .ok (some registering)

/-- The public-deployment conditional of `#getDeploymentFunctionCalls`:
deploy the instance via the instance deployer unless skipped. -/
def deploymentStep (env : CryptoEnv) (p : DeployMethodParams)
    (contract : ContractInfo) : Except DeployError (Option FunctionCall) :=
  if p.options.skipPublicDeployment then
    .ok none
  else
    (deployInstance env p.account contract.inst).bind fun deploymentCall =>
      .ok (some deploymentCall)

/-- The method `this.#getDeploymentFunctionCalls()`: register the class if not skipped
and not already known to the node, then deploy the instance if not skipped.
The push order of the source is kept: register call (with its capsule)
first, deploy call second. -/
def getDeploymentFunctionCalls (env : CryptoEnv) (p : DeployMethodParams) :
    Except DeployError CallPlan :=
  (deployMethodContract env p).bind fun contract =>
    (registrationStep env p contract).bind fun registration =>
      (deploymentStep env p contract).bind fun deployment =>
        .ok { calls := (registration.map RegisterPlan.call).toList ++ deployment.toList
              capsules := (registration.map RegisterPlan.capsule).toList }

/-- The method `this.#getInitializeFunctionCalls()`: one constructor call when a
constructor artifact exists and initialization is not skipped; the capsule
list of this sub-plan is always empty.  The constructor interaction's
`request()` is modelled from the spec as one call against the (not yet
existing) contract address. -/
def getInitializeFunctionCalls (env : CryptoEnv) (p : DeployMethodParams) :
    Except DeployError CallPlan :=
  (deployMethodContract env p).bind fun contract =>
    match p.constructorArtifact, p.options.skipInitialization with
    | some ca, false =>
      .ok { calls := [FunctionCall.initializeCall contract.address ca p.args]
            capsules := [] }
    | _, _ => .ok { calls := [], capsules := [] }

/-- The body of the memoized `this.#txRequest` accessor: run both sub-plans,
fail fast when the combined call count is zero, otherwise assemble the
transaction request. -/
def txRequest (env : CryptoEnv) (p : DeployMethodParams) :
    Except DeployError TransactionRequest :=
  (getDeploymentFunctionCalls env p).bind fun deployment =>
    (getInitializeFunctionCalls env p).bind fun bootstrap =>
      if deployment.calls.length + bootstrap.calls.length == 0 then
        .error (.nothingToDeploy p.artifact.name)
      else
        (deployMethodContract env p).bind fun c =>
          .ok { calls := deployment.calls ++ bootstrap.calls
                capsules := deployment.capsules ++ bootstrap.capsules
                registerContracts := [c] }

/-- The number of non-skipped, applicable deployment steps, stated the way
the specification counts them (one per applicable step). -/
def specStepCount (options : DeployOptions)
    (hasConstructor alreadyRegistered : Bool) : Nat :=
  (if !options.skipClassRegistration && !alreadyRegistered then 1 else 0) +
  (if !options.skipPublicDeployment then 1 else 0) +
  (if hasConstructor && !options.skipInitialization then 1 else 0)

/-! ## The compute-once (`lazyValue`) model

Modelled from the spec: `lazyValue` is defined in `src/utils.ts`, which is
not part of the provided sources.  Spec section 5 and design note 1 describe
it as a cell `NotStarted | InFlight | Done(value)`: the first access starts
the computation, accesses during flight await the same execution, accesses
after completion return the cached value.  `runCount` counts how many times
the underlying computation was started. -/

/-- The state of a compute-once cell. -/
inductive LazyState (α : Type) where
  | notStarted
  | inFlight
  | done (a : α)
deriving DecidableEq

/-- A compute-once cell together with the number of times its underlying
computation has been started. -/
structure LazyCell (α : Type) where
  state : LazyState α
  runCount : Nat
deriving DecidableEq

/-- A fresh cell: computation not started, never run. -/
def LazyCell.fresh {α : Type} : LazyCell α :=
  { state := .notStarted, runCount := 0 }

/-- Whether the cell's computation has been started. -/
def LazyCell.isStarted {α : Type} (c : LazyCell α) : Bool :=
  match c.state with
  | .notStarted => false
  | _ => true

/-- Events observable on a compute-once cell: an access by some caller, or
completion of the in-flight computation with a value. -/
inductive LazyEvent (α : Type) where
  | access
  | complete (a : α)

/-- Whether an event is an access. -/
def LazyEvent.isAccess {α : Type} : LazyEvent α → Bool
  | .access => true
  | .complete _ => false

/-- One step of the compute-once cell: the first access starts the
computation (incrementing the run count); later accesses leave the cell
unchanged (they await the in-flight execution or read the cached value);
completion moves an in-flight cell to done. -/
def stepLazy {α : Type} (c : LazyCell α) : LazyEvent α → LazyCell α
  | .access =>
    match c.state with
    | .notStarted => { state := .inFlight, runCount := c.runCount + 1 }
    | s => { state := s, runCount := c.runCount }
  | .complete a =>
    match c.state with
    | .inFlight => { state := .done a, runCount := c.runCount }
    | s => { state := s, runCount := c.runCount }

/-- Run a sequence of events against a compute-once cell. -/
def runLazy {α : Type} (c : LazyCell α) (evs : List (LazyEvent α)) : LazyCell α :=
  evs.foldl stepLazy c

/-! ## The `DeploySentTx` wait model

Modelled from the spec: `DeploySentTx.wait` awaits the receipt through the
upstream `SentTx` base class (an external collaborator whose receipt wait the
spec declares memoized) and then awaits the contract resolution, which
`DeployMethod.send` wraps in `lazyValue` around the caller-supplied
post-deploy constructor.  Both are modelled as compute-once cells that a
`wait` invocation forces to completion. -/

/-- Force a compute-once cell to completion: a cell already done returns its
cached value untouched; a not-started cell runs the computation (producing
`a`) exactly once; an in-flight cell completes without a new run. -/
def forceCell {α : Type} (a : α) (c : LazyCell α) : α × LazyCell α :=
  match c.state with
  | .done v => (v, c)
  | .notStarted => (a, { state := .done a, runCount := c.runCount + 1 })
  | .inFlight => (a, { state := .done a, runCount := c.runCount })

/-- The memoized state of a `DeploySentTx` handle: the receipt-wait cell and
the post-deploy contract-resolution cell. -/
structure DeploySentTxCells (R C : Type) where
  receiptCell : LazyCell R
  contractCell : LazyCell C

/-- A fresh handle as returned by `DeployMethod.send`. -/
def freshSentTx {R C : Type} : DeploySentTxCells R C :=
  { receiptCell := LazyCell.fresh, contractCell := LazyCell.fresh }

/-- One `wait()` invocation: force the receipt cell (a fresh wait would
produce `receipt`), force the contract cell (a fresh run of the post-deploy
constructor would produce `ctorResult`), and return the merged result
together with the updated handle state. -/
def waitHandle {R C : Type} (receipt : R) (ctorResult : C)
    (s : DeploySentTxCells R C) : (R × C) × DeploySentTxCells R C :=
  let rp := forceCell receipt s.receiptCell
  let cp := forceCell ctorResult s.contractCell
  ((rp.1, cp.1), { receiptCell := rp.2, contractCell := cp.2 })

/-! ## The `ReownWalletSdk.request` model (`src/unnamed/part_000`)

The method creates an `AbortController`, invokes the caller-supplied
confirmation callback when the method requires confirmation (this happens
before the try/finally), then runs the session lookup, the session
assertion, and the transport request inside a try whose finally aborts the
controller. -/

/-- Errors a request can surface. -/
inductive RpcError where
  /-- the caller-supplied confirmation callback threw synchronously. -/
  | callbackThrew
  /-- the assertion `assert(session, "no session")` failed. -/
  | noSession
  /-- the session lookup (modal construction or `getSession`) threw. -/
  | sessionFailed
  /-- the transport request was rejected. -/
  | transportRejected
deriving DecidableEq

/-- The environment of one `request` invocation: whether the method requires
confirmation, whether the confirmation callback throws synchronously, the
outcome of the session lookup, and the outcome of the transport request. -/
structure RequestEnv where
  requiresConfirmation : Bool
  onRequestThrows : Bool
  session : Except RpcError (Option Unit)
  modalResult : Except RpcError Nat

/-- The observable outcome of one `request` invocation: the returned or
thrown result, and whether the `AbortController` was aborted by the time the
method exited. -/
structure RequestOutcome where
  result : Except RpcError Nat
  abortedAtExit : Bool

/-- The method `ReownWalletSdk.request`: the confirmation callback runs before the
try/finally, so a synchronous throw there exits with the controller still
live; every path through the try body reaches the finally, which aborts. -/
def runRequest (env : RequestEnv) : RequestOutcome :=
  if env.requiresConfirmation && env.onRequestThrows then
    { result := .error .callbackThrew, abortedAtExit := false }
  else
    let body : Except RpcError Nat :=
      env.session.bind fun s =>
        match s with
        | none => .error .noSession
        | some _ => env.modalResult
    { result := body, abortedAtExit := true }

/-! ## Concrete test fixtures (used by witnesses and counterexamples) -/

/-- A test constructor artifact. -/
def testInitializer : FunctionArtifact := { name := "constructor", selector := 5 }

/-- A test artifact with a constructor. -/
def testArtifact : ContractArtifact :=
  { name := "Token", defaultInitializer := some testInitializer }

/-- A test artifact without a constructor. -/
def emptyArtifact : ContractArtifact :=
  { name := "Empty", defaultInitializer := none }

/-- The canonical class registerer's contract class. -/
def regClass : ContractClass :=
  { id := 21, artifactHash := 61, privateFunctionsRoot := 62
    publicBytecodeCommitment := 63, packedBytecode := [6] }

/-- The canonical instance deployer's contract class. -/
def depClass : ContractClass :=
  { id := 22, artifactHash := 71, privateFunctionsRoot := 72
    publicBytecodeCommitment := 73, packedBytecode := [7] }

/-- The test artifact's contract class. -/
def tokenClass : ContractClass :=
  { id := 7, artifactHash := 41, privateFunctionsRoot := 42
    publicBytecodeCommitment := 43, packedBytecode := [9, 9] }

/-- The constructor-less test artifact's contract class. -/
def emptyClass : ContractClass :=
  { id := 8, artifactHash := 51, privateFunctionsRoot := 52
    publicBytecodeCommitment := 53, packedBytecode := [5] }

/-- The canonical registerer artifact. -/
def regArtifact : ContractArtifact :=
  { name := "ContractClassRegisterer", defaultInitializer := none }

/-- The canonical deployer artifact. -/
def depArtifact : ContractArtifact :=
  { name := "ContractInstanceDeployer", defaultInitializer := none }

/-- The class table of the test environment, keyed by artifact name. -/
def classTable : String → ContractClass := fun n =>
  if n == "Token" then tokenClass
  else if n == "Empty" then emptyClass
  else if n == "ContractClassRegisterer" then regClass
  else depClass

/-- A concrete, fully consistent crypto environment. -/
def testEnv : CryptoEnv :=
  { deriveAddress := fun _ _ _ _ _ => 100
    deriveClassId := fun a => (classTable a.name).id
    deriveInitHash := fun _ _ => 50
    deriveSalt := fun s => s.getD 0
    classFromArtifact := fun a => classTable a.name
    bufferAsFields := fun bs => bs
    canonicalClassRegisterer := { contractClass := regClass, artifact := regArtifact }
    canonicalInstanceDeployer := { contractClass := depClass, artifact := depArtifact } }

/-- The registered instance of the class registerer. -/
def regInstance : ContractInstanceWithAddress :=
  { address := ProtocolContractAddress.ContractClassRegisterer, salt := 0
    contractClassId := 21, initializationHash := 0, publicKeys := 0, deployer := 0 }

/-- The registered instance of the instance deployer. -/
def depInstance : ContractInstanceWithAddress :=
  { address := ProtocolContractAddress.ContractInstanceDeployer, salt := 0
    contractClassId := 22, initializationHash := 0, publicKeys := 0, deployer := 0 }

/-- A node that knows both protocol contracts and no contract class. -/
def testNode : MinimalAztecNode :=
  { getContractClass := fun _ => none
    getContract := fun a =>
      if a == ProtocolContractAddress.ContractClassRegisterer then some regInstance
      else if a == ProtocolContractAddress.ContractInstanceDeployer then some depInstance
      else none }

/-- A node holding an instance whose class id matches no canonical
candidate at the registerer address. -/
def strangeInstance : ContractInstanceWithAddress :=
  { address := ProtocolContractAddress.ContractClassRegisterer, salt := 0
    contractClassId := 999, initializationHash := 0, publicKeys := 0, deployer := 0 }

/-- A node whose registerer address holds `strangeInstance`. -/
def strangeNode : MinimalAztecNode :=
  { getContractClass := fun _ => none
    getContract := fun a =>
      if a == ProtocolContractAddress.ContractClassRegisterer then some strangeInstance
      else none }

/-- A test account with a nonzero address. -/
def testAccount : Account := { address := 9, aztecNode := testNode }

/-- A test account whose address is the zero address. -/
def zeroAccount : Account := { address := 0, aztecNode := testNode }

/-- Default deploy options: nothing skipped, not universal. -/
def defaultOptions : DeployOptions :=
  { contractAddressSalt := some 1, universalDeploy := false
    skipClassRegistration := false, skipPublicDeployment := false
    skipInitialization := false }

/-- Deploy options with all three skip flags set. -/
def allSkipOptions : DeployOptions :=
  { contractAddressSalt := some 1, universalDeploy := false
    skipClassRegistration := true, skipPublicDeployment := true
    skipInitialization := true }

/-- Default test deployment parameters. -/
def testParams : DeployMethodParams :=
  { publicKeys := 4, account := testAccount, artifact := testArtifact
    args := [42], options := defaultOptions, constructorOverride := none }

/-- Deployment of a constructor-less artifact with all steps skipped. -/
def allSkipParams : DeployMethodParams :=
  { publicKeys := 4, account := testAccount, artifact := emptyArtifact
    args := [], options := allSkipOptions, constructorOverride := none }

/-- Deployment parameters built by a zero-address account with
`universalDeploy := false`. -/
def zeroDeployerParams : DeployMethodParams :=
  { publicKeys := 4, account := zeroAccount, artifact := testArtifact
    args := [42], options := defaultOptions, constructorOverride := none }

/-- A descriptor whose recorded deployer (5) is nonzero and differs from
`testAccount`'s address (9). -/
def mismatchInstance : ContractInstanceWithAddress :=
  { address := 100, salt := 1, contractClassId := 7
    initializationHash := 50, publicKeys := 4, deployer := 5 }

/-- A crypto environment whose instance-embedded class id disagrees with the
artifact-derived class id. -/
def mismatchEnv : CryptoEnv :=
  { testEnv with deriveClassId := fun _ => 999 }

/-! ## Helper lemmas -/

@[simp]
theorem exceptOkBind {ε α β : Type} (a : α) (f : α → Except ε β) :
    (Except.ok a : Except ε α).bind f = f a := rfl

@[simp]
theorem exceptErrorBind {ε α β : Type} (e : ε) (f : α → Except ε β) :
    (Except.error e : Except ε α).bind f = .error e := rfl

@[simp]
theorem derivedInstance_contractClassId (env : CryptoEnv) (p : DeployMethodParams) :
    (derivedInstance env p).contractClassId = env.deriveClassId p.artifact := rfl

@[simp]
theorem derivedInstance_deployer (env : CryptoEnv) (p : DeployMethodParams) :
    (derivedInstance env p).deployer = deployerParam p.options p.account := rfl

theorem deployerParam_cases (o : DeployOptions) (a : Account) :
    deployerParam o a = AztecAddress.ZERO ∨ deployerParam o a = a.getAddress := by
  unfold deployerParam
  split
  · exact Or.inl rfl
  · exact Or.inr rfl

theorem deployMethodContract_ok (env : CryptoEnv) (p : DeployMethodParams)
    (hid : env.deriveClassId p.artifact = (env.classFromArtifact p.artifact).id) :
    deployMethodContract env p =
      .ok { address := (derivedInstance env p).address
            inst := derivedInstance env p
            artifact := p.artifact } := by
  have h : ¬ (derivedInstance env p).contractClassId ≠ (env.classFromArtifact p.artifact).id := by
    simp [hid]
  unfold deployMethodContract
  rw [if_neg h]

theorem registerContractClass_ok (env : CryptoEnv) (account : Account)
    (artifact : ContractArtifact) (rc : UnsafeContract)
    (hrc : getRegistererContract env account = .ok rc) :
    registerContractClass env account artifact =
      .ok { call := FunctionCall.registerClass rc.inst.address
              (env.classFromArtifact artifact).artifactHash
              (env.classFromArtifact artifact).privateFunctionsRoot
              (env.classFromArtifact artifact).publicBytecodeCommitment true
            capsule := env.bufferAsFields (env.classFromArtifact artifact).packedBytecode } := by
  unfold registerContractClass
  rw [hrc, exceptOkBind]

theorem registerContractClass_kind (env : CryptoEnv) (account : Account)
    (artifact : ContractArtifact) (rp : RegisterPlan)
    (h : registerContractClass env account artifact = .ok rp) :
    rp.call.kind = 0 := by
  unfold registerContractClass at h
  cases hrc : getRegistererContract env account with
  | error e => rw [hrc] at h; simp at h
  | ok rc =>
    rw [hrc, exceptOkBind] at h
    simp only [Except.ok.injEq] at h
    subst h
    rfl

theorem deployInstance_kind (env : CryptoEnv) (account : Account)
    (inst : ContractInstanceWithAddress) (c : FunctionCall)
    (h : deployInstance env account inst = .ok c) : c.kind = 1 := by
  unfold deployInstance at h
  cases hdc : getDeployerContract env account with
  | error e => rw [hdc] at h; simp at h
  | ok dc =>
    rw [hdc, exceptOkBind] at h
    dsimp only at h
    split at h
    · simp at h
    · simp only [Except.ok.injEq] at h
      subst h
      rfl

theorem deployInstance_ok_of_param (env : CryptoEnv) (p : DeployMethodParams)
    (dc : UnsafeContract) (hdc : getDeployerContract env p.account = .ok dc) :
    deployInstance env p.account (derivedInstance env p) =
      .ok (FunctionCall.deployContract dc.inst.address (derivedInstance env p).salt
        (derivedInstance env p).contractClassId (derivedInstance env p).initializationHash
        (derivedInstance env p).publicKeys
        (deployerParam p.options p.account == AztecAddress.ZERO)) := by
  unfold deployInstance
  rw [hdc, exceptOkBind]
  simp only [derivedInstance_deployer]
  rcases deployerParam_cases p.options p.account with h0 | haddr
  · rw [h0]
    simp [AztecAddress.ZERO]
  · rw [haddr]
    simp

theorem registrationStep_eq (env : CryptoEnv) (p : DeployMethodParams)
    (contract : ContractInfo) (rc : UnsafeContract)
    (hrc : getRegistererContract env p.account = .ok rc) :
    registrationStep env p contract = .ok
      (if p.options.skipClassRegistration = false ∧
          (p.account.aztecNode.getContractClass contract.inst.contractClassId).isSome = false
        then some { call := FunctionCall.registerClass rc.inst.address
                      (env.classFromArtifact contract.artifact).artifactHash
                      (env.classFromArtifact contract.artifact).privateFunctionsRoot
                      (env.classFromArtifact contract.artifact).publicBytecodeCommitment true
                    capsule := env.bufferAsFields
                      (env.classFromArtifact contract.artifact).packedBytecode }
        else none) := by
  unfold registrationStep
  cases hsr : p.options.skipClassRegistration with
  | true => simp [hsr]
  | false =>
    cases hal : (p.account.aztecNode.getContractClass contract.inst.contractClassId).isSome with
    | true => simp [hal]
    | false =>
      simp only [Bool.false_eq_true, if_false, hal]
      rw [registerContractClass_ok env p.account contract.artifact rc hrc, exceptOkBind]
      simp

theorem deploymentStep_eq (env : CryptoEnv) (p : DeployMethodParams) (dc : UnsafeContract)
    (hdc : getDeployerContract env p.account = .ok dc)
    (contract : ContractInfo) (hinst : contract.inst = derivedInstance env p) :
    deploymentStep env p contract = .ok
      (if p.options.skipPublicDeployment = false
        then some (FunctionCall.deployContract dc.inst.address (derivedInstance env p).salt
          (derivedInstance env p).contractClassId (derivedInstance env p).initializationHash
          (derivedInstance env p).publicKeys
          (deployerParam p.options p.account == AztecAddress.ZERO))
        else none) := by
  unfold deploymentStep
  cases hsd : p.options.skipPublicDeployment with
  | true => simp [hsd]
  | false =>
    rw [hinst, deployInstance_ok_of_param env p dc hdc, exceptOkBind]
    simp

theorem registrationStep_kind (env : CryptoEnv) (p : DeployMethodParams)
    (contract : ContractInfo) (reg : Option RegisterPlan)
    (h : registrationStep env p contract = .ok reg) :
    ∀ rp, reg = some rp → rp.call.kind = 0 := by
  unfold registrationStep at h
  split at h
  · simp only [Except.ok.injEq] at h
    subst h
    intro rp hrp
    cases hrp
  · dsimp only at h
    split at h
    · simp only [Except.ok.injEq] at h
      subst h
      intro rp hrp
      cases hrp
    · cases hr : registerContractClass env p.account contract.artifact with
      | error e => rw [hr] at h; simp at h
      | ok rp0 =>
        rw [hr, exceptOkBind] at h
        simp only [Except.ok.injEq] at h
        subst h
        intro rp hrp
        cases hrp
        exact registerContractClass_kind env p.account contract.artifact rp0 hr

theorem deploymentStep_kind (env : CryptoEnv) (p : DeployMethodParams)
    (contract : ContractInfo) (dep : Option FunctionCall)
    (h : deploymentStep env p contract = .ok dep) :
    ∀ c, dep = some c → c.kind = 1 := by
  unfold deploymentStep at h
  split at h
  · simp only [Except.ok.injEq] at h
    subst h
    intro c hc
    cases hc
  · cases hd : deployInstance env p.account contract.inst with
    | error e => rw [hd] at h; simp at h
    | ok c0 =>
      rw [hd, exceptOkBind] at h
      simp only [Except.ok.injEq] at h
      subst h
      intro c hc
      cases hc
      exact deployInstance_kind env p.account contract.inst c0 hd

theorem getDeploymentFunctionCalls_shape (env : CryptoEnv) (p : DeployMethodParams)
    (plan : CallPlan) (h : getDeploymentFunctionCalls env p = .ok plan) :
    ∃ (reg : Option RegisterPlan) (dep : Option FunctionCall),
      plan.calls = (reg.map RegisterPlan.call).toList ++ dep.toList ∧
      plan.capsules = (reg.map RegisterPlan.capsule).toList ∧
      (∀ rp, reg = some rp → rp.call.kind = 0) ∧
      (∀ c, dep = some c → c.kind = 1) := by
  unfold getDeploymentFunctionCalls at h
  cases hco : deployMethodContract env p with
  | error e => rw [hco] at h; simp at h
  | ok contract =>
    rw [hco, exceptOkBind] at h
    cases hreg : registrationStep env p contract with
    | error e => rw [hreg] at h; simp at h
    | ok reg =>
      rw [hreg, exceptOkBind] at h
      cases hdep : deploymentStep env p contract with
      | error e => rw [hdep] at h; simp at h
      | ok dep =>
        rw [hdep, exceptOkBind] at h
        simp only [Except.ok.injEq] at h
        subst h
        exact ⟨reg, dep, rfl, rfl,
          registrationStep_kind env p contract reg hreg,
          deploymentStep_kind env p contract dep hdep⟩

theorem getInitializeFunctionCalls_shape (env : CryptoEnv) (p : DeployMethodParams)
    (plan : CallPlan) (h : getInitializeFunctionCalls env p = .ok plan) :
    plan.capsules = [] ∧ (∀ c ∈ plan.calls, c.kind = 2) ∧ plan.calls.length ≤ 1 := by
  unfold getInitializeFunctionCalls at h
  cases hco : deployMethodContract env p with
  | error e => rw [hco] at h; simp at h
  | ok contract =>
    rw [hco, exceptOkBind] at h
    rcases hca : p.constructorArtifact with _ | ca <;>
      cases hsi : p.options.skipInitialization <;>
        rw [hca, hsi] at h <;>
          simp only [Except.ok.injEq] at h <;>
            subst h <;>
              simp [FunctionCall.kind]

theorem getDeploymentFunctionCalls_eq (env : CryptoEnv) (p : DeployMethodParams)
    (rc dc : UnsafeContract)
    (hid : env.deriveClassId p.artifact = (env.classFromArtifact p.artifact).id)
    (hrc : getRegistererContract env p.account = .ok rc)
    (hdc : getDeployerContract env p.account = .ok dc) :
    getDeploymentFunctionCalls env p = .ok
      { calls :=
          (if p.options.skipClassRegistration = false ∧
              (p.account.aztecNode.getContractClass (env.deriveClassId p.artifact)).isSome = false
            then [FunctionCall.registerClass rc.inst.address
                    (env.classFromArtifact p.artifact).artifactHash
                    (env.classFromArtifact p.artifact).privateFunctionsRoot
                    (env.classFromArtifact p.artifact).publicBytecodeCommitment true]
            else []) ++
          (if p.options.skipPublicDeployment = false
            then [FunctionCall.deployContract dc.inst.address (derivedInstance env p).salt
                    (derivedInstance env p).contractClassId
                    (derivedInstance env p).initializationHash
                    (derivedInstance env p).publicKeys
                    (deployerParam p.options p.account == AztecAddress.ZERO)]
            else [])
        capsules :=
          if p.options.skipClassRegistration = false ∧
              (p.account.aztecNode.getContractClass (env.deriveClassId p.artifact)).isSome = false
            then [env.bufferAsFields (env.classFromArtifact p.artifact).packedBytecode]
            else [] } := by
  unfold getDeploymentFunctionCalls
  rw [deployMethodContract_ok env p hid, exceptOkBind,
    registrationStep_eq env p _ rc hrc, exceptOkBind,
    deploymentStep_eq env p dc hdc _ rfl, exceptOkBind]
  cases hsd : p.options.skipPublicDeployment <;>
    simp [hsd, apply_ite (Option.map RegisterPlan.call),
      apply_ite (Option.map RegisterPlan.capsule), apply_ite Option.toList]

theorem getInitializeFunctionCalls_eq (env : CryptoEnv) (p : DeployMethodParams)
    (hid : env.deriveClassId p.artifact = (env.classFromArtifact p.artifact).id) :
    getInitializeFunctionCalls env p = .ok
      { calls :=
          match p.constructorArtifact, p.options.skipInitialization with
          | some ca, false =>
            [FunctionCall.initializeCall (derivedInstance env p).address ca p.args]
          | _, _ => []
        capsules := [] } := by
  unfold getInitializeFunctionCalls
  rw [deployMethodContract_ok env p hid, exceptOkBind]
  rcases hca : p.constructorArtifact with _ | ca <;>
    cases hsi : p.options.skipInitialization <;>
      simp [hca, hsi]

/-- C1: for every combination of the skip flags, presence of a constructor
and node registration state, the planned call list of the assembled
transaction request has exactly one call per non-skipped applicable step
(register class only when not skipped and unknown to the node; deploy
instance when not skipped; initialize when not skipped and a constructor
exists); when that count is zero, building the request fails with the
`NothingToDeploy` error instead of returning an empty request. -/
theorem txRequest_step_count (env : CryptoEnv) (p : DeployMethodParams)
    (hid : env.deriveClassId p.artifact = (env.classFromArtifact p.artifact).id)
    (hrc : ∃ rc, getRegistererContract env p.account = .ok rc)
    (hdc : ∃ dc, getDeployerContract env p.account = .ok dc) :
    (specStepCount p.options p.constructorArtifact.isSome
        (p.account.aztecNode.getContractClass (env.deriveClassId p.artifact)).isSome = 0 →
      txRequest env p = .error (.nothingToDeploy p.artifact.name)) ∧
    (specStepCount p.options p.constructorArtifact.isSome
        (p.account.aztecNode.getContractClass (env.deriveClassId p.artifact)).isSome ≠ 0 →
      ∃ r, txRequest env p = .ok r ∧
        r.calls.length = specStepCount p.options p.constructorArtifact.isSome
          (p.account.aztecNode.getContractClass (env.deriveClassId p.artifact)).isSome) := by
  obtain ⟨rc, hrc⟩ := hrc
  obtain ⟨dc, hdc⟩ := hdc
  unfold txRequest
  rw [getDeploymentFunctionCalls_eq env p rc dc hid hrc hdc, exceptOkBind,
    getInitializeFunctionCalls_eq env p hid, exceptOkBind]
  cases hsr : p.options.skipClassRegistration <;>
    cases hal : (p.account.aztecNode.getContractClass (env.deriveClassId p.artifact)).isSome <;>
      cases hsd : p.options.skipPublicDeployment <;>
        cases hsi : p.options.skipInitialization <;>
          rcases hca : p.constructorArtifact with _ | ca <;>
            simp [hsr, hal, hsd, hsi, hca, specStepCount,
              deployMethodContract_ok env p hid]

/-- Witness for `txRequest_step_count`: with the concrete test fixtures and
nothing skipped the request contains exactly three calls; with all skip
flags set and no constructor, planning fails with `NothingToDeploy`. -/
theorem txRequest_step_count_witness :
    (∃ r, txRequest testEnv testParams = .ok r ∧
      r.calls.length = specStepCount testParams.options
        testParams.constructorArtifact.isSome
        ((testParams.account.aztecNode.getContractClass
          (testEnv.deriveClassId testParams.artifact)).isSome)) ∧
    txRequest testEnv allSkipParams = .error (.nothingToDeploy allSkipParams.artifact.name) :=
  ⟨(txRequest_step_count testEnv testParams rfl ⟨_, rfl⟩ ⟨_, rfl⟩).2 (by decide),
   (txRequest_step_count testEnv allSkipParams rfl ⟨_, rfl⟩ ⟨_, rfl⟩).1 (by decide)⟩

theorem txRequest_inv (env : CryptoEnv) (p : DeployMethodParams)
    (r : TransactionRequest) (h : txRequest env p = .ok r) :
    ∃ dplan bplan ci, getDeploymentFunctionCalls env p = .ok dplan ∧
      getInitializeFunctionCalls env p = .ok bplan ∧
      deployMethodContract env p = .ok ci ∧
      r = { calls := dplan.calls ++ bplan.calls
            capsules := dplan.capsules ++ bplan.capsules
            registerContracts := [ci] } := by
  unfold txRequest at h
  cases hd : getDeploymentFunctionCalls env p with
  | error e => rw [hd] at h; simp at h
  | ok dplan =>
    rw [hd, exceptOkBind] at h
    cases hb : getInitializeFunctionCalls env p with
    | error e => rw [hb] at h; simp at h
    | ok bplan =>
      rw [hb, exceptOkBind] at h
      split at h
      · simp at h
      · cases hc : deployMethodContract env p with
        | error e => rw [hc] at h; simp at h
        | ok ci =>
          rw [hc, exceptOkBind] at h
          simp only [Except.ok.injEq] at h
          exact ⟨dplan, bplan, ci, rfl, rfl, rfl, h.symm⟩

theorem mem_option_toList {α β : Type} (f : α → β) (o : Option α) (b : β)
    (h : b ∈ (o.map f).toList) : ∃ a, o = some a ∧ b = f a := by
  rcases o with _ | a
  · simp at h
  · simp at h
    exact ⟨a, rfl, h⟩

theorem pairwise_const_kind (l : List FunctionCall) (k : Nat)
    (h : ∀ c ∈ l, c.kind = k) :
    l.Pairwise (fun a b => a.kind ≤ b.kind) := by
  induction l with
  | nil => exact List.Pairwise.nil
  | cons x xs ih =>
    refine List.Pairwise.cons ?_ (ih fun c hc => h c (List.mem_cons_of_mem x hc))
    intro b hb
    rw [h x (List.mem_cons_self x xs), h b (List.mem_cons_of_mem x hb)]

theorem pairwise_kind_mono (l1 l2 : List FunctionCall) (k : Nat)
    (h1 : ∀ c ∈ l1, c.kind ≤ k) (h2 : ∀ c ∈ l2, k ≤ c.kind)
    (hp1 : l1.Pairwise (fun a b => a.kind ≤ b.kind))
    (hp2 : l2.Pairwise (fun a b => a.kind ≤ b.kind)) :
    (l1 ++ l2).Pairwise (fun a b => a.kind ≤ b.kind) := by
  apply List.pairwise_append.mpr
  exact ⟨hp1, hp2, fun a ha b hb => le_trans (h1 a ha) (h2 b hb)⟩

/-- C2: every assembled transaction request orders register-class calls
before deploy-instance calls before initialization calls; its calls and
capsules are the concatenations of the two sub-plans in sub-plan order; and
`registerContracts` is exactly the `ContractInfo` of the contract being
deployed. -/
theorem txRequest_call_order (env : CryptoEnv) (p : DeployMethodParams)
    (r : TransactionRequest) (h : txRequest env p = .ok r) :
    r.calls.Pairwise (fun a b => a.kind ≤ b.kind) ∧
    (∃ dplan bplan, getDeploymentFunctionCalls env p = .ok dplan ∧
      getInitializeFunctionCalls env p = .ok bplan ∧
      r.calls = dplan.calls ++ bplan.calls ∧
      r.capsules = dplan.capsules ++ bplan.capsules) ∧
    (∃ ci, deployMethodContract env p = .ok ci ∧ r.registerContracts = [ci]) := by
  obtain ⟨dplan, bplan, ci, hd, hb, hc, rfl⟩ := txRequest_inv env p r h
  obtain ⟨reg, dep, hcalls, hcaps, hreg0, hdep1⟩ :=
    getDeploymentFunctionCalls_shape env p dplan hd
  obtain ⟨hbcaps, hbkind, hblen⟩ := getInitializeFunctionCalls_shape env p bplan hb
  refine ⟨?_, ⟨dplan, bplan, hd, hb, rfl, rfl⟩, ⟨ci, hc, rfl⟩⟩
  have hk0 : ∀ c ∈ (reg.map RegisterPlan.call).toList, c.kind = 0 := by
    intro c hcmem
    obtain ⟨rp, hrp, hcf⟩ := mem_option_toList RegisterPlan.call reg c hcmem
    rw [hcf]
    exact hreg0 rp hrp
  have hk1 : ∀ c ∈ dep.toList, c.kind = 1 := by
    intro c hcmem
    rw [Option.mem_toList, Option.mem_def] at hcmem
    exact hdep1 c hcmem
  show (dplan.calls ++ bplan.calls).Pairwise fun a b => a.kind ≤ b.kind
  rw [hcalls, List.append_assoc]
  apply pairwise_kind_mono _ _ 1
  · intro c hcm
    rw [hk0 c hcm]
    omega
  · intro c hcm
    rcases List.mem_append.mp hcm with hm | hm
    · rw [hk1 c hm]
    · rw [hbkind c hm]
      omega
  · exact pairwise_const_kind _ 0 hk0
  · apply pairwise_kind_mono _ _ 2
    · intro c hcm
      rw [hk1 c hcm]
      omega
    · intro c hcm
      rw [hbkind c hcm]
    · exact pairwise_const_kind _ 1 hk1
    · exact pairwise_const_kind _ 2 hbkind

/-- Witness for `txRequest_call_order`: the concrete full deployment produces
a request whose calls are ordered registration, deployment, initialization. -/
theorem txRequest_call_order_witness :
    ∃ r, txRequest testEnv testParams = .ok r ∧
      r.calls.Pairwise (fun a b => a.kind ≤ b.kind) :=
  ⟨_, rfl, (txRequest_call_order testEnv testParams _ rfl).1⟩

/-- C9: every assembled request carries at most one capsule; a capsule is
present exactly when a register-class call is present; the initialization
sub-plan always returns an empty capsule list (and hence the deploy-instance
step never contributes a capsule). -/
theorem txRequest_capsule_invariant (env : CryptoEnv) (p : DeployMethodParams)
    (r : TransactionRequest) (h : txRequest env p = .ok r) :
    r.capsules.length ≤ 1 ∧
    (r.capsules ≠ [] ↔ ∃ c ∈ r.calls, c.kind = 0) ∧
    (∀ plan, getInitializeFunctionCalls env p = .ok plan → plan.capsules = []) := by
  obtain ⟨dplan, bplan, ci, hd, hb, hc, rfl⟩ := txRequest_inv env p r h
  obtain ⟨reg, dep, hcalls, hcaps, hreg0, hdep1⟩ :=
    getDeploymentFunctionCalls_shape env p dplan hd
  obtain ⟨hbcaps, hbkind, hblen⟩ := getInitializeFunctionCalls_shape env p bplan hb
  have hrcaps : (dplan.capsules ++ bplan.capsules : List Capsule) =
      (reg.map RegisterPlan.capsule).toList := by
    rw [hcaps, hbcaps, List.append_nil]
  refine ⟨?_, ⟨?_, ?_⟩, ?_⟩
  · show (dplan.capsules ++ bplan.capsules).length ≤ 1
    rw [hrcaps]
    rcases reg with _ | rp <;> simp
  · intro hne
    show ∃ c ∈ dplan.calls ++ bplan.calls, c.kind = 0
    rw [hrcaps] at hne
    rcases reg with _ | rp
    · simp at hne
    · refine ⟨rp.call, ?_, hreg0 rp rfl⟩
      rw [hcalls]
      simp
  · intro hex
    obtain ⟨c, hcm, hck⟩ := hex
    show (dplan.capsules ++ bplan.capsules : List Capsule) ≠ []
    rw [hrcaps]
    rw [hcalls] at hcm
    rcases List.mem_append.mp hcm with hm | hm
    · rcases List.mem_append.mp hm with hm2 | hm2
      · obtain ⟨rp, hrp, hcf⟩ := mem_option_toList RegisterPlan.call reg c hm2
        rw [hrp]
        simp
      · rw [Option.mem_toList, Option.mem_def] at hm2
        rw [hdep1 c hm2] at hck
        cases hck
    · rw [hbkind c hm] at hck
      cases hck
  · intro plan hplan
    exact (getInitializeFunctionCalls_shape env p plan hplan).1

/-- Witness for `txRequest_capsule_invariant`: the concrete full deployment
produces a request with at most one capsule. -/
theorem txRequest_capsule_invariant_witness :
    ∃ r, txRequest testEnv testParams = .ok r ∧ r.capsules.length ≤ 1 :=
  ⟨_, rfl, (txRequest_capsule_invariant testEnv testParams _ rfl).1⟩

/-- C5: whenever the class id embedded in the derived instance differs from
the class id computed independently from the artifact, building the
descriptor fails with the fatal `ContractClassMismatch` error and no
`ContractInfo` is produced. -/
theorem contract_class_mismatch_fatal (env : CryptoEnv) (p : DeployMethodParams)
    (h : (derivedInstance env p).contractClassId ≠ (env.classFromArtifact p.artifact).id) :
    deployMethodContract env p =
      .error (.contractClassMismatch (derivedInstance env p).contractClassId
        (env.classFromArtifact p.artifact).id) := by
  unfold deployMethodContract
  rw [if_pos h]

/-- Witness for `contract_class_mismatch_fatal`: in an environment whose two
class-id computations disagree (999 against 7), the descriptor build fails. -/
theorem contract_class_mismatch_fatal_witness :
    deployMethodContract mismatchEnv testParams =
      .error (.contractClassMismatch 999 7) :=
  contract_class_mismatch_fatal mismatchEnv testParams (by decide)

/-- C6 counterexample: the claim "with `universalDeploy=false`, a descriptor
whose deployer differs from the sending account's address makes planning
fail with `DeployerMismatch`" is false on the code.  A descriptor built with
`universalDeploy := false` by a zero-address account records deployer 0,
which differs from the sender's address 9, yet `deployInstance` succeeds
because the code decides universality by `deployer.isZero()`. -/
theorem deployer_check_zero_counterexample :
    zeroDeployerParams.options.universalDeploy = false ∧
    (derivedInstance testEnv zeroDeployerParams).deployer ≠ testAccount.getAddress ∧
    deployInstance testEnv testAccount (derivedInstance testEnv zeroDeployerParams) =
      .ok (FunctionCall.deployContract 2 1 7 50 4 true) :=
  ⟨rfl, by decide, rfl⟩

/-- C6 (amended): planning the deploy-instance call fails with
`DeployerMismatch` exactly when the descriptor's recorded deployer is
nonzero and differs from the sending account's address; when the recorded
deployer is zero (in particular whenever the descriptor was built with
`universalDeploy = true`) the mismatch never causes a failure. -/
theorem deployInstance_deployer_check (env : CryptoEnv) (account : Account)
    (inst : ContractInstanceWithAddress)
    (hdc : ∃ dc, getDeployerContract env account = .ok dc) :
    (inst.deployer ≠ AztecAddress.ZERO → inst.deployer ≠ account.getAddress →
      deployInstance env account inst =
        .error (.deployerMismatch inst.deployer account.getAddress)) ∧
    (inst.deployer = AztecAddress.ZERO →
      ∃ c, deployInstance env account inst = .ok c) ∧
    (∀ p : DeployMethodParams, p.options.universalDeploy = true →
      (derivedInstance env p).deployer = AztecAddress.ZERO) := by
  obtain ⟨dc, hdc⟩ := hdc
  refine ⟨?_, ?_, ?_⟩
  · intro h0 hne
    unfold deployInstance
    rw [hdc, exceptOkBind]
    have h1 : (inst.deployer == AztecAddress.ZERO) = false := by
      simp [h0]
    have h2 : (account.getAddress == inst.deployer) = false := by
      simp
      exact fun hq => hne hq.symm
    simp [h1, h2]
  · intro h0
    have h1 : (inst.deployer == AztecAddress.ZERO) = true := by
      simp [h0]
    refine ⟨FunctionCall.deployContract dc.inst.address inst.salt
      inst.contractClassId inst.initializationHash inst.publicKeys
      (inst.deployer == AztecAddress.ZERO), ?_⟩
    unfold deployInstance
    rw [hdc, exceptOkBind]
    simp [h1]
  · intro p hp
    simp [derivedInstance_deployer, deployerParam, hp]

/-- Witness for `deployInstance_deployer_check`: a descriptor with nonzero
deployer 5 sent by the account at address 9 fails with `DeployerMismatch`. -/
theorem deployInstance_deployer_check_witness :
    deployInstance testEnv testAccount mismatchInstance =
      .error (.deployerMismatch 5 9) :=
  (deployInstance_deployer_check testEnv testAccount mismatchInstance
    ⟨_, rfl⟩).1 (by decide) (by decide)

/-- C10: the universal/non-universal distinction at deploy time is decided
by the descriptor's deployer being the zero address, not by the
`universalDeploy` option: for a zero-address account with
`universalDeploy = false` the descriptor's deployer is zero, the
deployer-mismatch check is skipped, and the deploy call is built with
`isUniversalDeploy = true`. -/
theorem zero_address_deployer_universal (env : CryptoEnv) (p : DeployMethodParams)
    (hu : p.options.universalDeploy = false)
    (ha : p.account.getAddress = AztecAddress.ZERO)
    (hdc : ∃ dc, getDeployerContract env p.account = .ok dc) :
    deployerParam p.options p.account = AztecAddress.ZERO ∧
    (derivedInstance env p).deployer = AztecAddress.ZERO ∧
    ∃ dc, getDeployerContract env p.account = .ok dc ∧
      deployInstance env p.account (derivedInstance env p) =
        .ok (FunctionCall.deployContract dc.inst.address (derivedInstance env p).salt
          (derivedInstance env p).contractClassId
          (derivedInstance env p).initializationHash
          (derivedInstance env p).publicKeys true) := by
  obtain ⟨dc, hdc⟩ := hdc
  have hd : deployerParam p.options p.account = AztecAddress.ZERO := by
    simp [deployerParam, hu, ha]
  refine ⟨hd, by simp [derivedInstance_deployer, hd], dc, hdc, ?_⟩
  have := deployInstance_ok_of_param env p dc hdc
  rw [hd] at this
  simpa using this

/-- Witness for `zero_address_deployer_universal`: the concrete zero-address
account with `universalDeploy = false` yields a deploy call with
`isUniversalDeploy = true` and no `DeployerMismatch`. -/
theorem zero_address_deployer_universal_witness :
    deployerParam zeroDeployerParams.options zeroDeployerParams.account =
      AztecAddress.ZERO ∧
    (derivedInstance testEnv zeroDeployerParams).deployer = AztecAddress.ZERO ∧
    ∃ dc, getDeployerContract testEnv zeroDeployerParams.account = .ok dc ∧
      deployInstance testEnv zeroDeployerParams.account
          (derivedInstance testEnv zeroDeployerParams) =
        .ok (FunctionCall.deployContract dc.inst.address
          (derivedInstance testEnv zeroDeployerParams).salt
          (derivedInstance testEnv zeroDeployerParams).contractClassId
          (derivedInstance testEnv zeroDeployerParams).initializationHash
          (derivedInstance testEnv zeroDeployerParams).publicKeys true) :=
  zero_address_deployer_universal testEnv zeroDeployerParams rfl rfl ⟨_, rfl⟩

/-- C7: resolving a protocol contract at a well-known address fails with
`NotRegistered` when the node reports no instance there; otherwise the
candidate set is exactly the two canonical protocol contracts
(class registerer, instance deployer), the resolution fails with
`ArtifactNotFound` when no candidate's class id matches the instance's
reported class id, and a successful resolution returns the queried instance
together with the artifact of a matching candidate. -/
theorem getProtocolContract_resolution (env : CryptoEnv)
    (node : MinimalAztecNode) (address : AztecAddress) :
    (node.getContract address = none →
      getProtocolContract env node address = .error (.notRegistered address)) ∧
    (∀ inst, node.getContract address = some inst →
      protocolCandidates env =
        [env.canonicalClassRegisterer, env.canonicalInstanceDeployer] ∧
      ((∀ c ∈ protocolCandidates env, c.contractClass.id ≠ inst.contractClassId) →
        getProtocolContract env node address = .error (.artifactNotFound address)) ∧
      (∀ u, getProtocolContract env node address = .ok u →
        u.inst = inst ∧ ∃ c ∈ protocolCandidates env,
          c.contractClass.id = inst.contractClassId ∧ u.artifact = c.artifact)) := by
  refine ⟨?_, ?_⟩
  · intro h
    simp [getProtocolContract, h]
  · intro inst h
    refine ⟨rfl, ?_, ?_⟩
    · intro hall
      have hf : (protocolCandidates env).find?
          (fun c => c.contractClass.id == inst.contractClassId) = none := by
        rw [List.find?_eq_none]
        intro c hcm
        simpa using hall c hcm
      simp [getProtocolContract, h, fetchProtocolContractArtifact, hf]
    · intro u hu
      unfold getProtocolContract at hu
      rw [h] at hu
      dsimp only at hu
      cases hf : fetchProtocolContractArtifact env inst.contractClassId with
      | none => rw [hf] at hu; simp at hu
      | some artifact =>
        rw [hf] at hu
        simp only [Except.ok.injEq] at hu
        subst hu
        unfold fetchProtocolContractArtifact at hf
        obtain ⟨c, hcf, hca⟩ := Option.map_eq_some'.mp hf
        have hmem := List.mem_of_find?_eq_some hcf
        have hp := List.find?_some hcf
        exact ⟨rfl, c, hmem, by simpa using hp, hca.symm⟩

/-- Witness for `getProtocolContract_resolution`: with the concrete test
node, an unknown address fails with `NotRegistered`, and an instance whose
class id matches no canonical candidate fails with `ArtifactNotFound`. -/
theorem getProtocolContract_resolution_witness :
    getProtocolContract testEnv testNode 99 = .error (.notRegistered 99) ∧
    getProtocolContract testEnv strangeNode
        ProtocolContractAddress.ContractClassRegisterer =
      .error (.artifactNotFound ProtocolContractAddress.ContractClassRegisterer) :=
  ⟨(getProtocolContract_resolution testEnv testNode 99).1 (by decide),
   ((getProtocolContract_resolution testEnv strangeNode
      ProtocolContractAddress.ContractClassRegisterer).2 strangeInstance
      (by decide)).2.1 (by decide)⟩

theorem runLazy_started {α : Type} (evs : List (LazyEvent α)) :
    ∀ c : LazyCell α, c.isStarted = true →
      (runLazy c evs).runCount = c.runCount ∧ (runLazy c evs).isStarted = true := by
  induction evs with
  | nil => exact fun c h => ⟨rfl, h⟩
  | cons e rest ih =>
    intro c h
    have hstep : (stepLazy c e).runCount = c.runCount ∧
        (stepLazy c e).isStarted = true := by
      cases e <;> cases hcs : c.state <;>
        simp [stepLazy, LazyCell.isStarted, hcs] at h ⊢
    have hrec := ih (stepLazy c e) hstep.2
    exact ⟨hrec.1.trans hstep.1, hrec.2⟩

/-- C3: the compute-once wrapper (used for the descriptor build, the
planning sub-plans via the transaction-request accessor, and the contract
resolution) starts its underlying computation lazily on first access, makes
concurrent callers share the single in-flight execution, and runs the
computation exactly once per cell regardless of how many accesses occur:
after any event sequence the run count is one when at least one access
happened, and zero otherwise. -/
theorem lazyValue_computes_once {α : Type} (evs : List (LazyEvent α)) :
    (runLazy (LazyCell.fresh : LazyCell α) evs).runCount =
      if evs.any LazyEvent.isAccess then 1 else 0 := by
  induction evs with
  | nil => rfl
  | cons e rest ih =>
    cases e with
    | access =>
      have h1 : runLazy (LazyCell.fresh : LazyCell α) (.access :: rest) =
          runLazy { state := .inFlight, runCount := 1 } rest := rfl
      have h2 := runLazy_started rest
        ({ state := .inFlight, runCount := 1 } : LazyCell α) rfl
      rw [h1, h2.1]
      simp [LazyEvent.isAccess]
    | complete a =>
      have h1 : runLazy (LazyCell.fresh : LazyCell α) (.complete a :: rest) =
          runLazy LazyCell.fresh rest := rfl
      rw [h1, ih]
      simp [LazyEvent.isAccess]

/-- C4: two `wait()` invocations on the same `DeploySentTx` handle return
structurally equal receipt/contract pairs without recomputation: even if the
environment would produce different values the second time, the memoized
cells return the first results, and after both waits the receipt wait ran
once and the post-deploy constructor ran once. -/
theorem deploySentTx_wait_idempotent {R C : Type} (r1 r2 : R) (c1 c2 : C) :
    (waitHandle r2 c2 (waitHandle r1 c1 (freshSentTx : DeploySentTxCells R C)).2).1 =
      (waitHandle r1 c1 (freshSentTx : DeploySentTxCells R C)).1 ∧
    (waitHandle r2 c2
      (waitHandle r1 c1 (freshSentTx : DeploySentTxCells R C)).2).2.receiptCell.runCount = 1 ∧
    (waitHandle r2 c2
      (waitHandle r1 c1 (freshSentTx : DeploySentTxCells R C)).2).2.contractCell.runCount = 1 :=
  ⟨rfl, rfl, rfl⟩

/-- C8 counterexample: the claim "on every exit path of the request method
the cancellation token is aborted" is false on the code: when the method
requires confirmation and the caller-supplied confirmation callback throws
synchronously, the method exits by throwing before entering the try/finally,
with the controller still live. -/
theorem request_callback_throw_counterexample :
    runRequest { requiresConfirmation := true, onRequestThrows := true
                 session := .ok (some ()), modalResult := .ok 0 } =
      { result := .error .callbackThrew, abortedAtExit := false } := rfl

/-- C8 (amended): on every exit path of the request method that is not a
synchronous throw from the caller-supplied confirmation callback — success,
session rejection, or transport error — the cancellation token is aborted
by the time the method exits. -/
theorem request_aborts_on_exit (env : RequestEnv)
    (h : env.requiresConfirmation = false ∨ env.onRequestThrows = false) :
    (runRequest env).abortedAtExit = true := by
  unfold runRequest
  rcases h with h | h <;> simp [h]

/-- Witness for `request_aborts_on_exit`: a confirmation-requiring request
whose transport rejects still exits with the controller aborted. -/
theorem request_aborts_on_exit_witness :
    (runRequest { requiresConfirmation := true, onRequestThrows := false
                  session := .ok (some ())
                  modalResult := .error .transportRejected }).abortedAtExit = true :=
  request_aborts_on_exit _ (Or.inr rfl)
